import Mathlib

/-!
Verification of the dc.js chart coordination core against its specification.

The development shallowly embeds the parts of the code the claims are about:

* `src/src/charts/composite-chart.js` — the `CompositeChart` class: child
  composition, left/right axis partition, axis extent aggregation, dual-axis
  alignment, filter propagation, legendables and accessor methods.
* `CFSimpleAdapter.data` (the base read of the data transform chain).

JavaScript numbers are modelled as rationals (`ℚ`), JS `undefined` as
`Option.none`, and thrown errors as `Except.error`.  Opaque collaborator
values that the composite chart merely stores and passes around (title
functions, option bags, filters, legendable items) are modelled as opaque
tokens.  Methods that mutate `this` become functions from the chart state to
a new chart state.
-/

namespace DC

/-- Margins object `{top, right, bottom, left}` shared between a composite
chart and its children. -/
structure Margins where
  top : ℚ
  right : ℚ
  bottom : ℚ
  left : ℚ
deriving DecidableEq

/-- Opaque token standing for a title function (the chart only stores and
forwards it, never inspects it). -/
abbrev Title := Nat

/-- Opaque token standing for the chart-options bag passed to
`child.options(...)`; `empty` is the `{}` the constructor starts with. -/
inductive OptionsBag where
  | empty
  | bag (id : Nat)
deriving DecidableEq

/-- Opaque token standing for one filter value in a chart's filter set. -/
abbrev Filter := Int

/-- Opaque token standing for one legendable item. -/
abbrev Legendable := Nat

/-- A composed child chart, modelled through the coordinate-grid chart
contract the composite chart uses: the `useRightYAxis` flag, the reported
`yAxisMin`/`yAxisMax` extents, the geometry and title state the parent
pushes down, the filter set, the legendable items, and the last option bag
applied through `options()`. -/
structure ChildChart where
  useRightYAxis : Bool
  yAxisMin : ℚ
  yAxisMax : ℚ
  height : ℚ
  width : ℚ
  margins : Margins
  title : Title
  filters : List Filter
  legendables : List Legendable
  _options : OptionsBag
deriving DecidableEq

namespace ChildChart

/-- Modelled from the spec: `replaceFilter` is a base-mixin method
(src/base-mixin.js is not among the sources); per the spec it is the
"replace my entire filter set with the parent's" call. -/
def replaceFilter (ch : ChildChart) (fs : List Filter) : ChildChart :=
  { ch with filters := fs }

/-- Modelled from the spec: `options(bag)` is the chart-level options
contract (src/base-mixin.js is not among the sources); it applies the given
option bag to the child's configuration, modelled by recording the bag. -/
def options (ch : ChildChart) (bag : OptionsBag) : ChildChart :=
  { ch with _options := bag }

end ChildChart

/-- The composite chart state: the coordinate-grid base state the composite
inherits (height, width, margins, title, filter set, y-axis padding)
together with the fields assigned in the `CompositeChart` constructor
(lines 32–44 of composite-chart.js). -/
structure CompositeChart where
  height : ℚ
  width : ℚ
  margins : Margins
  title : Title
  filters : List Filter
  yAxisPadding : ℚ
  _children : List ChildChart
  _childOptions : OptionsBag
  _shareColors : Bool
  _shareTitle : Bool
  _alignYAxes : Bool
  _rightAxisGridLines : Option Bool
deriving DecidableEq

namespace d3

/-- `d3.min` over a list of numbers reported by child charts; d3 is an
external collaborator: it yields `undefined` (`none`) on an empty list and
the minimum otherwise. -/
def min : List ℚ → Option ℚ
  | [] => none
  | x :: xs => some (xs.foldl Min.min x)

/-- `d3.max`, dually to `d3.min`. -/
def max : List ℚ → Option ℚ
  | [] => none
  | x :: xs => some (xs.foldl Max.max x)

end d3

namespace utils

/-- Modelled from the spec: `utils.add` lives in src/utils.js, which is not
among the sources; the spec says "maximum extent = maximum of each assigned
child's own reported axis-maximum, plus one configured padding amount", so
on numeric padding it is addition. -/
def add (x padding : ℚ) : ℚ := x + padding

end utils

namespace CompositeChart

/-- The `CompositeChart` constructor (composite-chart.js lines 29–60).  The
coordinate-grid base state is inherited and passed in; the constructor's own
assignments are `_children = []`, `_childOptions = {}`,
`_shareColors = false`, `_shareTitle = true`, `_alignYAxes = false`,
`_rightAxisGridLines = false`. -/
def new (height width : ℚ) (margins : Margins) (title : Title)
    (filters : List Filter) (yAxisPadding : ℚ) : CompositeChart :=
  { height, width, margins, title, filters, yAxisPadding,
    _children := [], _childOptions := OptionsBag.empty,
    _shareColors := false, _shareTitle := true, _alignYAxes := false,
    _rightAxisGridLines := some false }

/-- Zero-argument form of the `shareColors` accessor (lines 380–386). -/
def shareColors (c : CompositeChart) : Bool := c._shareColors

/-- Zero-argument form of the `shareTitle` accessor (lines 400–406). -/
def shareTitle (c : CompositeChart) : Bool := c._shareTitle

/-- Zero-argument form of the `alignYAxes` accessor (lines 436–443). -/
def alignYAxes (c : CompositeChart) : Bool := c._alignYAxes

/-- Zero-argument form of the `children` accessor (lines 365–367). -/
def children (c : CompositeChart) : List ChildChart := c._children

/-- `filter()` with no argument: base-mixin getter returning "the entire
current set of filters, not just the last added one" (per the comment at
composite-chart.js lines 52–53; src/base-mixin.js is not among the
sources). -/
def filter (c : CompositeChart) : List Filter := c.filters

/-- The `'filtered.dcjs-composite-chart'` handler installed by the
constructor (lines 50–57): propagates the parent's filters onto the
children by calling `replaceFilter(this.filter())` on each child in
child-list order. -/
def onFiltered (c : CompositeChart) : CompositeChart :=
  { c with _children := c._children.map (fun child => child.replaceFilter c.filter) }

/-- `compose(subChartArray)` (lines 342–356): replaces the child list; each
child gets the parent's height, width and margins, the parent's title when
`_shareTitle` is set, and the parent's child-option bag via `options`. -/
def compose (c : CompositeChart) (subChartArray : List ChildChart) : CompositeChart :=
  { c with _children := subChartArray.map (fun child =>
      let child := { child with height := c.height, width := c.width, margins := c.margins }
      let child := if c._shareTitle then { child with title := c.title } else child
      child.options c._childOptions) }

/-- `_leftYAxisChildren` (lines 445–447). -/
def _leftYAxisChildren (c : CompositeChart) : List ChildChart :=
  c._children.filter (fun child => !child.useRightYAxis)

/-- `_rightYAxisChildren` (lines 449–451). -/
def _rightYAxisChildren (c : CompositeChart) : List ChildChart :=
  c._children.filter (fun child => child.useRightYAxis)

/-- `_getYAxisMin` (lines 453–455). -/
def _getYAxisMin (charts : List ChildChart) : List ℚ :=
  charts.map (fun c => c.yAxisMin)

/-- `_yAxisMin` (lines 457–459). -/
def _yAxisMin (c : CompositeChart) : Option ℚ :=
  d3.min (_getYAxisMin c._leftYAxisChildren)

/-- `_rightYAxisMin` (lines 461–463). -/
def _rightYAxisMin (c : CompositeChart) : Option ℚ :=
  d3.min (_getYAxisMin c._rightYAxisChildren)

/-- `_getYAxisMax` (lines 465–467). -/
def _getYAxisMax (charts : List ChildChart) : List ℚ :=
  charts.map (fun c => c.yAxisMax)

/-- `_yAxisMax` (lines 469–471): `utils.add(d3.max(...), yAxisPadding)`.
When the side has no children `d3.max` is `undefined`; the addition is only
meaningful on the defined case, modelled with `Option.map`. -/
def _yAxisMax (c : CompositeChart) : Option ℚ :=
  (d3.max (_getYAxisMax c._leftYAxisChildren)).map (fun v => utils.add v c.yAxisPadding)

/-- `_rightYAxisMax` (lines 473–475). -/
def _rightYAxisMax (c : CompositeChart) : Option ℚ :=
  (d3.max (_getYAxisMax c._rightYAxisChildren)).map (fun v => utils.add v c.yAxisPadding)

/-- Result record of `_alignYAxisRanges`. -/
structure YAlignedRanges where
  lyAxisMin : ℚ
  lyAxisMax : ℚ
  ryAxisMin : ℚ
  ryAxisMax : ℚ
deriving DecidableEq

/-- `_alignYAxisRanges` (lines 147–164): the dual-axis alignment formula. -/
def _alignYAxisRanges (lyAxisMin lyAxisMax ryAxisMin ryAxisMax : ℚ) : YAlignedRanges :=
  let r := (ryAxisMax - ryAxisMin) / (lyAxisMax - lyAxisMin)
  { lyAxisMin := Min.min lyAxisMin (ryAxisMin / r),
    lyAxisMax := Max.max lyAxisMax (ryAxisMax / r),
    ryAxisMin := Min.min ryAxisMin (lyAxisMin * r),
    ryAxisMax := Max.max ryAxisMax (lyAxisMax * r) }

/-- Result record of `_calculateYAxisRanges`; a side with no children has
`undefined` (`none`) extents. -/
structure CalcRanges where
  lyAxisMin : Option ℚ
  lyAxisMax : Option ℚ
  ryAxisMin : Option ℚ
  ryAxisMax : Option ℚ
deriving DecidableEq

/-- `_calculateYAxisRanges(left, right)` (lines 121–145).  The aligned
branch requires the four extents, which are defined exactly when the
corresponding flag is passed as true by `_prepareYAxis` (the flags are
computed there as non-emptiness of the side's child list); the fall-through
of the `match` mirrors the `ranges ||` default for the unreachable
undefined case. -/
def _calculateYAxisRanges (c : CompositeChart) (left right : Bool) : CalcRanges :=
  let lyAxisMin := if left then c._yAxisMin else none
  let lyAxisMax := if left then c._yAxisMax else none
  let ryAxisMin := if right then c._rightYAxisMin else none
  let ryAxisMax := if right then c._rightYAxisMax else none
  let ranges : Option CalcRanges :=
    if c.alignYAxes && left && right then
      match lyAxisMin, lyAxisMax, ryAxisMin, ryAxisMax with
      | some lm, some lM, some rm, some rM =>
        let a := _alignYAxisRanges lm lM rm rM
        some { lyAxisMin := some a.lyAxisMin, lyAxisMax := some a.lyAxisMax,
               ryAxisMin := some a.ryAxisMin, ryAxisMax := some a.ryAxisMax }
      | _, _, _, _ => none
    else none
  ranges.getD { lyAxisMin, lyAxisMax, ryAxisMin, ryAxisMax }

/-- The range computation of `_prepareYAxis` (lines 90–93): the `left` and
`right` flags are the non-emptiness of each side's child list. -/
def _prepareYAxisRanges (c : CompositeChart) : CalcRanges :=
  let left := !c._leftYAxisChildren.isEmpty
  let right := !c._rightYAxisChildren.isEmpty
  c._calculateYAxisRanges left right

/-- A thrown JS `Error`. -/
inductive JsError where
  | mk (msg : String)
deriving DecidableEq

/-- `yAxisMin` on the composite chart itself (lines 552–554): always
throws. -/
def yAxisMin (_c : CompositeChart) : Except JsError ℚ :=
  Except.error (JsError.mk "Not supported for this chart type")

/-- `yAxisMax` on the composite chart itself (lines 556–558): always
throws. -/
def yAxisMax (_c : CompositeChart) : Except JsError ℚ :=
  Except.error (JsError.mk "Not supported for this chart type")

/-- `legendables` (lines 493–501): the reduce over the children, appending
each child's legendables.  (When `_shareColors` is set the loop also pushes
the parent's colors onto each child; that touches child color state only
and not the returned items, so it is omitted from this value-level
embedding.) -/
def legendables (c : CompositeChart) : List Legendable :=
  c._children.foldl (fun items child => items ++ child.legendables) []

/-- Result of a call to the overloaded `useRightAxisGridLines` accessor:
either the getter branch's value or the setter branch's returned chart. -/
inductive GridLinesCallResult where
  | value (b : Option Bool)
  | chart (c : CompositeChart)
deriving DecidableEq

/-- In JavaScript, `arguments` inside a function body is the arguments
object of the current call; it is an object and therefore truthy even when
no argument was passed, so `!arguments` is false for every call. -/
def jsArgumentsObjectIsFalsy (_args : List Bool) : Bool := false

/-- `useRightAxisGridLines` (lines 251–258), embedded exactly as written:
the guard is `!arguments` (not `!arguments.length`), so the getter branch
is dead code and every call — also one with no argument — runs the setter,
storing the first argument (`undefined`, i.e. `none`, when absent) and
returning the chart. -/
def useRightAxisGridLines (c : CompositeChart) (args : List Bool) : GridLinesCallResult :=
  if jsArgumentsObjectIsFalsy args then
    GridLinesCallResult.value c._rightAxisGridLines
  else
    GridLinesCallResult.chart { c with _rightAxisGridLines := args.head? }

end CompositeChart

/-- One crossfilter record `{key, value}`, with the derived `_value` field
that `CFSimpleAdapter.data` writes (`none` = the field is absent). -/
structure CFRecord where
  key : Int
  value : ℚ
  _value : Option ℚ := none
deriving DecidableEq

/-- The `CFSimpleAdapter` state the `data()` method reads: the records the
crossfilter group currently holds (what `group.all()` returns — the group's
own live array) and the configured `valueAccessor` (default `d => d.value`
from the constructor). -/
structure CFSimpleAdapter where
  group_all : List CFRecord
  valueAccessor : CFRecord → ℚ := fun d => d.value

/-- `CFSimpleAdapter.data` (cross-filter-simple-adapter lines 31–42),
embedded exactly as written.  `entities` aliases the group's own records:
`group.all()` returns the group's internal array.  The
`entities.map(val => ({ ...val }))` on the next line allocates shallow
copies but its result is not assigned to anything, so the subsequent
`forEach` writes `_value` through `entities` onto the group's own records.
The result pair is (returned records, the group's records after the call);
because of the aliasing the two components are the same records. -/
def CFSimpleAdapter.data (a : CFSimpleAdapter) : List CFRecord × List CFRecord :=
  let entities := a.group_all
  let _copiesDiscarded := entities.map
    (fun val => { key := val.key, value := val.value, _value := val._value : CFRecord })
  let mutated := entities.map (fun e => { e with _value := some (a.valueAccessor e) })
  (mutated, mutated)

/-! ### Concrete sample instances used by witnesses and counterexamples -/

def sampleMargins : Margins := { top := 1, right := 2, bottom := 3, left := 4 }

def sampleLeftChild : ChildChart :=
  { useRightYAxis := false, yAxisMin := 1, yAxisMax := 3, height := 10, width := 20,
    margins := sampleMargins, title := 7, filters := [5], legendables := [1, 2],
    _options := OptionsBag.empty }

def sampleRightChild : ChildChart :=
  { sampleLeftChild with
    useRightYAxis := true, yAxisMin := 2, yAxisMax := 5, legendables := [3] }

def sampleCompositeA : CompositeChart :=
  { height := 100, width := 200, margins := sampleMargins, title := 9, filters := [4, 6],
    yAxisPadding := 0, _children := [sampleLeftChild, sampleRightChild],
    _childOptions := OptionsBag.bag 1, _shareColors := false, _shareTitle := true,
    _alignYAxes := true, _rightAxisGridLines := some false }

def sampleCompositeB : CompositeChart := { sampleCompositeA with _alignYAxes := false }

def sampleCFAdapter : CFSimpleAdapter :=
  { group_all := [{ key := 1, value := 5 }] }

def sampleNewComposite : CompositeChart :=
  CompositeChart.new 100 200 sampleMargins 9 [] 0

/-! ### Claims -/

/-- C1: the claim says the base read shallow-copies each record before the
derived `_value` field is written, so no record held by the source gains a
`_value` field.  The code discards the shallow copies (the `map` result on
line 35 is unused) and the `forEach` writes `_value` onto the source's own
records: on a source holding the single record `{key: 1, value: 5}`, after
`data()` the source's record has `_value = 5`, so the claim fails on the
code as written (a code bug: the copies were clearly intended to be used). -/
theorem cfSimpleAdapter_data_mutates_source_records :
    (sampleCFAdapter.data).2 ≠ sampleCFAdapter.group_all
  ∧ (sampleCFAdapter.data).2.map CFRecord._value = [some 5]
  ∧ sampleCFAdapter.group_all.map CFRecord._value = [none] := by
  refine ⟨by decide, rfl, rfl⟩

/-- C4: calling `yAxisMin()` or `yAxisMax()` directly on a composite chart
always throws the configuration error `'Not supported for this chart
type'`, for every composite chart state; neither call ever returns a
value. -/
theorem yAxisMinMax_always_throws (c : CompositeChart) :
    c.yAxisMin = Except.error (CompositeChart.JsError.mk "Not supported for this chart type")
  ∧ c.yAxisMax = Except.error (CompositeChart.JsError.mk "Not supported for this chart type")
  ∧ (∀ q : ℚ, c.yAxisMin ≠ Except.ok q)
  ∧ (∀ q : ℚ, c.yAxisMax ≠ Except.ok q) := by
  refine ⟨rfl, rfl, ?_, ?_⟩ <;> intro q hq <;>
    simp [CompositeChart.yAxisMin, CompositeChart.yAxisMax] at hq

/-- C5: the composite chart's `'filtered'` handler gives every child, in
child-list order, a `replaceFilter` call carrying the parent's entire
current filter set, so afterwards each child's filter set equals the
parent's; every other piece of child state is untouched. -/
theorem onFiltered_replaces_each_child_filter_set (c : CompositeChart) :
    (c.onFiltered)._children.map ChildChart.filters = c._children.map (fun _ => c.filter)
  ∧ (c.onFiltered)._children.map
      (fun ch => (ch.useRightYAxis, ch.yAxisMin, ch.yAxisMax, ch.height, ch.width,
        ch.margins, ch.title, ch.legendables, ch._options))
    = c._children.map
      (fun ch => (ch.useRightYAxis, ch.yAxisMin, ch.yAxisMax, ch.height, ch.width,
        ch.margins, ch.title, ch.legendables, ch._options)) := by
  constructor <;>
    simp [CompositeChart.onFiltered, ChildChart.replaceFilter, Function.comp_def,
      List.map_const']

/-- C8: the claim says `useRightAxisGridLines()` with no arguments returns
the configured boolean and leaves the configuration unchanged.  The guard
in the code is `!arguments` instead of `!arguments.length`, and the JS
`arguments` object is truthy even for a zero-argument call, so the getter
branch is dead: a zero-argument call on a freshly constructed chart runs
the setter, overwrites `_rightAxisGridLines` (initially `false`) with
`undefined`, and returns the chart — it never returns a value.  This
contradicts the method's own documentation ("Get or set …",
`@returns {Boolean|dc.compositeChart}`), so it is a code bug. -/
theorem useRightAxisGridLines_no_arg_runs_setter :
    sampleNewComposite.useRightAxisGridLines []
      = CompositeChart.GridLinesCallResult.chart
          { sampleNewComposite with _rightAxisGridLines := none }
  ∧ (∀ b : Option Bool,
      sampleNewComposite.useRightAxisGridLines []
        ≠ CompositeChart.GridLinesCallResult.value b) := by
  constructor
  · rfl
  · intro b hb
    simp [CompositeChart.useRightAxisGridLines, CompositeChart.jsArgumentsObjectIsFalsy] at hb

/-- C9: immediately after construction a composite chart has
`shareTitle() = true`, `shareColors() = false` and `alignYAxes() = false`,
so children composed without further configuration all receive the parent's
title function. -/
theorem new_composite_defaults (h w : ℚ) (m : Margins) (t : Title) (fs : List Filter)
    (p : ℚ) (arr : List ChildChart) :
    (CompositeChart.new h w m t fs p).shareTitle = true
  ∧ (CompositeChart.new h w m t fs p).shareColors = false
  ∧ (CompositeChart.new h w m t fs p).alignYAxes = false
  ∧ ((CompositeChart.new h w m t fs p).compose arr)._children.map ChildChart.title
      = arr.map (fun _ => t) := by
  refine ⟨rfl, rfl, rfl, ?_⟩
  simp [CompositeChart.new, CompositeChart.compose, ChildChart.options, Function.comp_def,
    List.map_const']

/-- The `reduce`/push loop of `legendables` appends each child's items to
the accumulator. -/
theorem foldl_append_legendables (l : List ChildChart) (acc : List Legendable) :
    l.foldl (fun items child => items ++ child.legendables) acc
      = acc ++ (l.map ChildChart.legendables).flatten := by
  induction l generalizing acc with
  | nil => simp
  | cons hd tl ih => simp [ih]

/-- C10: `legendables()` on a composite chart returns exactly the
concatenation of each child's legendables in child-list order (hence the
empty list for an empty child list). -/
theorem legendables_concat_children (c : CompositeChart) :
    c.legendables = (c._children.map ChildChart.legendables).flatten := by
  simpa [CompositeChart.legendables] using foldl_append_legendables c._children []

/-- C7: `compose(children)` replaces the child list with the given array;
each child, in order, gets the parent's height, width and margins, the
parent's title exactly when title-sharing is enabled at the time of the
call, and the parent's configured child-option bag via `options()`; the
rest of each child's state is untouched. -/
theorem compose_pushes_parent_state_down (c : CompositeChart) (arr : List ChildChart) :
    (c.compose arr)._children.length = arr.length
  ∧ (c.compose arr)._children.map ChildChart.height = arr.map (fun _ => c.height)
  ∧ (c.compose arr)._children.map ChildChart.width = arr.map (fun _ => c.width)
  ∧ (c.compose arr)._children.map ChildChart.margins = arr.map (fun _ => c.margins)
  ∧ (c.compose arr)._children.map ChildChart.title
      = arr.map (fun ch => if c.shareTitle then c.title else ch.title)
  ∧ (c.compose arr)._children.map ChildChart._options = arr.map (fun _ => c._childOptions)
  ∧ (c.compose arr)._children.map
      (fun ch => (ch.useRightYAxis, ch.yAxisMin, ch.yAxisMax, ch.filters, ch.legendables))
    = arr.map
      (fun ch => (ch.useRightYAxis, ch.yAxisMin, ch.yAxisMax, ch.filters, ch.legendables)) := by
  cases hs : c._shareTitle <;>
    refine ⟨by simp [CompositeChart.compose], ?_, ?_, ?_, ?_, ?_, ?_⟩ <;>
    simp [CompositeChart.compose, ChildChart.options, CompositeChart.shareTitle, hs,
      Function.comp_def, List.map_const']

/-- The running fold of `d3.min` stays an element of the list seen so far. -/
theorem foldl_min_mem (xs : List ℚ) : ∀ x : ℚ, xs.foldl Min.min x ∈ x :: xs := by
  induction xs with
  | nil => intro x; simp
  | cons a t ih =>
    intro x
    rcases List.mem_cons.mp (ih (Min.min x a)) with h1 | h1
    · rcases min_choice x a with hm | hm
      · rw [List.foldl_cons, h1, hm]
        exact List.mem_cons_self _ _
      · rw [List.foldl_cons, h1, hm]
        exact List.mem_cons_of_mem _ (List.mem_cons_self _ _)
    · rw [List.foldl_cons]
      exact List.mem_cons_of_mem _ (List.mem_cons_of_mem _ h1)

/-- The running fold of `d3.min` is a lower bound of the list seen so far. -/
theorem foldl_min_le (xs : List ℚ) : ∀ x y : ℚ, y ∈ x :: xs → xs.foldl Min.min x ≤ y := by
  induction xs with
  | nil =>
    intro x y hy
    rcases List.mem_cons.mp hy with rfl | h
    · exact le_refl y
    · simp at h
  | cons a t ih =>
    intro x y hy
    rw [List.foldl_cons]
    rcases List.mem_cons.mp hy with h0 | hy1
    · rw [h0]
      exact le_trans (ih (Min.min x a) _ (List.mem_cons_self _ _)) (min_le_left _ _)
    · rcases List.mem_cons.mp hy1 with h1 | hy2
      · rw [h1]
        exact le_trans (ih (Min.min x a) _ (List.mem_cons_self _ _)) (min_le_right _ _)
      · exact ih (Min.min x a) y (List.mem_cons_of_mem _ hy2)

/-- The running fold of `d3.max` stays an element of the list seen so far. -/
theorem foldl_max_mem (xs : List ℚ) : ∀ x : ℚ, xs.foldl Max.max x ∈ x :: xs := by
  induction xs with
  | nil => intro x; simp
  | cons a t ih =>
    intro x
    rcases List.mem_cons.mp (ih (Max.max x a)) with h1 | h1
    · rcases max_choice x a with hm | hm
      · rw [List.foldl_cons, h1, hm]
        exact List.mem_cons_self _ _
      · rw [List.foldl_cons, h1, hm]
        exact List.mem_cons_of_mem _ (List.mem_cons_self _ _)
    · rw [List.foldl_cons]
      exact List.mem_cons_of_mem _ (List.mem_cons_of_mem _ h1)

/-- The running fold of `d3.max` is an upper bound of the list seen so far. -/
theorem le_foldl_max (xs : List ℚ) : ∀ x y : ℚ, y ∈ x :: xs → y ≤ xs.foldl Max.max x := by
  induction xs with
  | nil =>
    intro x y hy
    rcases List.mem_cons.mp hy with rfl | h
    · exact le_refl y
    · simp at h
  | cons a t ih =>
    intro x y hy
    rw [List.foldl_cons]
    rcases List.mem_cons.mp hy with h0 | hy1
    · rw [h0]
      exact le_trans (le_max_left _ _) (ih (Max.max x a) _ (List.mem_cons_self _ _))
    · rcases List.mem_cons.mp hy1 with h1 | hy2
      · rw [h1]
        exact le_trans (le_max_right _ _) (ih (Max.max x a) _ (List.mem_cons_self _ _))
      · exact ih (Max.max x a) y (List.mem_cons_of_mem _ hy2)

/-- On a nonempty list, `d3.min` returns an attained lower bound. -/
theorem d3_min_spec (l : List ℚ) (hne : l ≠ []) :
    ∃ m, d3.min l = some m ∧ m ∈ l ∧ ∀ y ∈ l, m ≤ y := by
  cases l with
  | nil => exact absurd rfl hne
  | cons x xs =>
    exact ⟨xs.foldl Min.min x, rfl, foldl_min_mem xs x, fun y hy => foldl_min_le xs x y hy⟩

/-- On a nonempty list, `d3.max` returns an attained upper bound. -/
theorem d3_max_spec (l : List ℚ) (hne : l ≠ []) :
    ∃ m, d3.max l = some m ∧ m ∈ l ∧ ∀ y ∈ l, y ≤ m := by
  cases l with
  | nil => exact absurd rfl hne
  | cons x xs =>
    exact ⟨xs.foldl Max.max x, rfl, foldl_max_mem xs x, fun y hy => le_foldl_max xs x y hy⟩

/-- The minimum of the reported `yAxisMin`s of a nonempty side. -/
theorem side_min_spec (kids : List ChildChart) (hne : kids ≠ []) :
    ∃ m, d3.min (CompositeChart._getYAxisMin kids) = some m
      ∧ (∃ ch ∈ kids, ch.yAxisMin = m) ∧ ∀ ch ∈ kids, m ≤ ch.yAxisMin := by
  have hmap : CompositeChart._getYAxisMin kids ≠ [] := by
    simp [CompositeChart._getYAxisMin, hne]
  obtain ⟨m, h1, h2, h3⟩ := d3_min_spec _ hmap
  refine ⟨m, h1, ?_, ?_⟩
  · obtain ⟨ch, hch, he⟩ := List.mem_map.mp h2
    exact ⟨ch, hch, he⟩
  · intro ch hch
    exact h3 _ (List.mem_map.mpr ⟨ch, hch, rfl⟩)

/-- The maximum of the reported `yAxisMax`s of a nonempty side. -/
theorem side_max_spec (kids : List ChildChart) (hne : kids ≠ []) :
    ∃ m, d3.max (CompositeChart._getYAxisMax kids) = some m
      ∧ (∃ ch ∈ kids, ch.yAxisMax = m) ∧ ∀ ch ∈ kids, ch.yAxisMax ≤ m := by
  have hmap : CompositeChart._getYAxisMax kids ≠ [] := by
    simp [CompositeChart._getYAxisMax, hne]
  obtain ⟨m, h1, h2, h3⟩ := d3_max_spec _ hmap
  refine ⟨m, h1, ?_, ?_⟩
  · obtain ⟨ch, hch, he⟩ := List.mem_map.mp h2
    exact ⟨ch, hch, he⟩
  · intro ch hch
    exact h3 _ (List.mem_map.mpr ⟨ch, hch, rfl⟩)

/-- C6: side membership is decided solely by each child's `useRightYAxis`
flag, and for each axis side with at least one child — each side
conditioned independently, so one-sided composites are covered — that
side's minimum extent is the minimum of that side's children's reported
`yAxisMin`, and its maximum extent is the maximum of that side's children's
reported `yAxisMax` plus the configured y-axis padding; children of the
other side contribute nothing (the extents are bounds attained within the
side's own children). -/
theorem composite_side_extent_aggregation (c : CompositeChart) :
    (∀ ch : ChildChart,
        ch ∈ c._leftYAxisChildren ↔ ch ∈ c._children ∧ ch.useRightYAxis = false)
  ∧ (∀ ch : ChildChart,
        ch ∈ c._rightYAxisChildren ↔ ch ∈ c._children ∧ ch.useRightYAxis = true)
  ∧ (c._leftYAxisChildren ≠ [] →
      (∃ m, c._yAxisMin = some m ∧ (∃ ch ∈ c._leftYAxisChildren, ch.yAxisMin = m)
        ∧ ∀ ch ∈ c._leftYAxisChildren, m ≤ ch.yAxisMin)
      ∧ (∃ M, c._yAxisMax = some (M + c.yAxisPadding)
        ∧ (∃ ch ∈ c._leftYAxisChildren, ch.yAxisMax = M)
        ∧ ∀ ch ∈ c._leftYAxisChildren, ch.yAxisMax ≤ M))
  ∧ (c._rightYAxisChildren ≠ [] →
      (∃ m, c._rightYAxisMin = some m ∧ (∃ ch ∈ c._rightYAxisChildren, ch.yAxisMin = m)
        ∧ ∀ ch ∈ c._rightYAxisChildren, m ≤ ch.yAxisMin)
      ∧ (∃ M, c._rightYAxisMax = some (M + c.yAxisPadding)
        ∧ (∃ ch ∈ c._rightYAxisChildren, ch.yAxisMax = M)
        ∧ ∀ ch ∈ c._rightYAxisChildren, ch.yAxisMax ≤ M)) := by
  refine ⟨?_, ?_, fun hl => ⟨?_, ?_⟩, fun hr => ⟨?_, ?_⟩⟩
  · intro ch
    simp [CompositeChart._leftYAxisChildren, List.mem_filter]
  · intro ch
    simp [CompositeChart._rightYAxisChildren, List.mem_filter]
  · obtain ⟨m, h1, h2, h3⟩ := side_min_spec _ hl
    exact ⟨m, by simp [CompositeChart._yAxisMin, h1], h2, h3⟩
  · obtain ⟨M, h1, h2, h3⟩ := side_max_spec _ hl
    refine ⟨M, ?_, h2, h3⟩
    simp [CompositeChart._yAxisMax, h1, utils.add]
  · obtain ⟨m, h1, h2, h3⟩ := side_min_spec _ hr
    exact ⟨m, by simp [CompositeChart._rightYAxisMin, h1], h2, h3⟩
  · obtain ⟨M, h1, h2, h3⟩ := side_max_spec _ hr
    refine ⟨M, ?_, h2, h3⟩
    simp [CompositeChart._rightYAxisMax, h1, utils.add]

theorem composite_side_extent_aggregation_witness :
    (∀ ch : ChildChart, ch ∈ sampleCompositeA._leftYAxisChildren
        ↔ ch ∈ sampleCompositeA._children ∧ ch.useRightYAxis = false)
  ∧ (∀ ch : ChildChart, ch ∈ sampleCompositeA._rightYAxisChildren
        ↔ ch ∈ sampleCompositeA._children ∧ ch.useRightYAxis = true)
  ∧ ((∃ m, sampleCompositeA._yAxisMin = some m
      ∧ (∃ ch ∈ sampleCompositeA._leftYAxisChildren, ch.yAxisMin = m)
      ∧ ∀ ch ∈ sampleCompositeA._leftYAxisChildren, m ≤ ch.yAxisMin)
    ∧ (∃ M, sampleCompositeA._yAxisMax = some (M + sampleCompositeA.yAxisPadding)
      ∧ (∃ ch ∈ sampleCompositeA._leftYAxisChildren, ch.yAxisMax = M)
      ∧ ∀ ch ∈ sampleCompositeA._leftYAxisChildren, ch.yAxisMax ≤ M))
  ∧ ((∃ m, sampleCompositeA._rightYAxisMin = some m
      ∧ (∃ ch ∈ sampleCompositeA._rightYAxisChildren, ch.yAxisMin = m)
      ∧ ∀ ch ∈ sampleCompositeA._rightYAxisChildren, m ≤ ch.yAxisMin)
    ∧ (∃ M, sampleCompositeA._rightYAxisMax = some (M + sampleCompositeA.yAxisPadding)
      ∧ (∃ ch ∈ sampleCompositeA._rightYAxisChildren, ch.yAxisMax = M)
      ∧ ∀ ch ∈ sampleCompositeA._rightYAxisChildren, ch.yAxisMax ≤ M)) :=
  ⟨(composite_side_extent_aggregation sampleCompositeA).1,
   (composite_side_extent_aggregation sampleCompositeA).2.1,
   (composite_side_extent_aggregation sampleCompositeA).2.2.1 (by decide),
   (composite_side_extent_aggregation sampleCompositeA).2.2.2 (by decide)⟩

/-- When the left side has no children, `if` on its non-emptiness leaves
the (then `undefined`) raw minimum extent unchanged. -/
theorem if_isEmpty_yAxisMin (c : CompositeChart) :
    (if !c._leftYAxisChildren.isEmpty then c._yAxisMin else none) = c._yAxisMin := by
  cases hE : c._leftYAxisChildren.isEmpty
  · simp
  · simp [CompositeChart._yAxisMin, CompositeChart._getYAxisMin,
      List.isEmpty_iff.mp hE, d3.min]

/-- As `if_isEmpty_yAxisMin`, for the left maximum extent. -/
theorem if_isEmpty_yAxisMax (c : CompositeChart) :
    (if !c._leftYAxisChildren.isEmpty then c._yAxisMax else none) = c._yAxisMax := by
  cases hE : c._leftYAxisChildren.isEmpty
  · simp
  · simp [CompositeChart._yAxisMax, CompositeChart._getYAxisMax,
      List.isEmpty_iff.mp hE, d3.max]

/-- As `if_isEmpty_yAxisMin`, for the right minimum extent. -/
theorem if_isEmpty_rightYAxisMin (c : CompositeChart) :
    (if !c._rightYAxisChildren.isEmpty then c._rightYAxisMin else none)
      = c._rightYAxisMin := by
  cases hE : c._rightYAxisChildren.isEmpty
  · simp
  · simp [CompositeChart._rightYAxisMin, CompositeChart._getYAxisMin,
      List.isEmpty_iff.mp hE, d3.min]

/-- As `if_isEmpty_yAxisMin`, for the right maximum extent. -/
theorem if_isEmpty_rightYAxisMax (c : CompositeChart) :
    (if !c._rightYAxisChildren.isEmpty then c._rightYAxisMax else none)
      = c._rightYAxisMax := by
  cases hE : c._rightYAxisChildren.isEmpty
  · simp
  · simp [CompositeChart._rightYAxisMax, CompositeChart._getYAxisMax,
      List.isEmpty_iff.mp hE, d3.max]

/-- When the alignment branch is not taken, `_prepareYAxis` uses each
side's raw extents unchanged. -/
theorem prepareYAxisRanges_raw (c : CompositeChart)
    (hcond : (c.alignYAxes && !c._leftYAxisChildren.isEmpty
        && !c._rightYAxisChildren.isEmpty) = false) :
    c._prepareYAxisRanges =
      { lyAxisMin := c._yAxisMin, lyAxisMax := c._yAxisMax,
        ryAxisMin := c._rightYAxisMin, ryAxisMax := c._rightYAxisMax } := by
  simp only [CompositeChart._prepareYAxisRanges, CompositeChart._calculateYAxisRanges, hcond,
    Bool.false_eq_true, if_false, Option.getD_none]
  rw [if_isEmpty_yAxisMin, if_isEmpty_yAxisMax, if_isEmpty_rightYAxisMin,
    if_isEmpty_rightYAxisMax]

/-- When alignment is on and all four extents are defined, `_prepareYAxis`
produces the aligned ranges. -/
theorem prepareYAxisRanges_aligned (c : CompositeChart) (lm lM rm rM : ℚ)
    (hA : c.alignYAxes = true)
    (h1 : c._yAxisMin = some lm) (h2 : c._yAxisMax = some lM)
    (h3 : c._rightYAxisMin = some rm) (h4 : c._rightYAxisMax = some rM) :
    c._prepareYAxisRanges =
      { lyAxisMin := some (Min.min lm (rm / ((rM - rm) / (lM - lm)))),
        lyAxisMax := some (Max.max lM (rM / ((rM - rm) / (lM - lm)))),
        ryAxisMin := some (Min.min rm (lm * ((rM - rm) / (lM - lm)))),
        ryAxisMax := some (Max.max rM (lM * ((rM - rm) / (lM - lm)))) } := by
  have hl : c._leftYAxisChildren ≠ [] := by
    intro hnil
    rw [CompositeChart._yAxisMin] at h1
    simp [CompositeChart._getYAxisMin, hnil, d3.min] at h1
  have hrgt : c._rightYAxisChildren ≠ [] := by
    intro hnil
    rw [CompositeChart._rightYAxisMin] at h3
    simp [CompositeChart._getYAxisMin, hnil, d3.min] at h3
  have hLE : c._leftYAxisChildren.isEmpty = false := by
    cases hE : c._leftYAxisChildren.isEmpty
    · rfl
    · exact absurd (List.isEmpty_iff.mp hE) hl
  have hRE : c._rightYAxisChildren.isEmpty = false := by
    cases hE : c._rightYAxisChildren.isEmpty
    · rfl
    · exact absurd (List.isEmpty_iff.mp hE) hrgt
  simp [CompositeChart._prepareYAxisRanges, CompositeChart._calculateYAxisRanges,
    hA, hLE, hRE, h1, h2, h3, h4, CompositeChart._alignYAxisRanges]

/-- C2: with the `alignYAxes` flag enabled and both sides populated, the
composite chart's axis ranges are the aligned ranges
`extentRatio = (rightMax − rightMin) / (leftMax − leftMin)`,
left `[min(leftMin, rightMin / extentRatio), max(leftMax, rightMax / extentRatio)]`,
right `[min(rightMin, leftMin · extentRatio), max(rightMax, leftMax · extentRatio)]`;
with the flag off or a side without children, each side's raw extents are
used unchanged. -/
theorem calculateYAxisRanges_claim (c : CompositeChart) :
    (∀ lm lM rm rM : ℚ, c.alignYAxes = true →
      c._leftYAxisChildren ≠ [] → c._rightYAxisChildren ≠ [] →
      c._yAxisMin = some lm → c._yAxisMax = some lM →
      c._rightYAxisMin = some rm → c._rightYAxisMax = some rM →
      c._prepareYAxisRanges =
        { lyAxisMin := some (Min.min lm (rm / ((rM - rm) / (lM - lm)))),
          lyAxisMax := some (Max.max lM (rM / ((rM - rm) / (lM - lm)))),
          ryAxisMin := some (Min.min rm (lm * ((rM - rm) / (lM - lm)))),
          ryAxisMax := some (Max.max rM (lM * ((rM - rm) / (lM - lm)))) })
  ∧ ((c.alignYAxes = false ∨ c._leftYAxisChildren = [] ∨ c._rightYAxisChildren = []) →
      c._prepareYAxisRanges =
        { lyAxisMin := c._yAxisMin, lyAxisMax := c._yAxisMax,
          ryAxisMin := c._rightYAxisMin, ryAxisMax := c._rightYAxisMax }) := by
  constructor
  · intro lm lM rm rM hA _ _ h1 h2 h3 h4
    exact prepareYAxisRanges_aligned c lm lM rm rM hA h1 h2 h3 h4
  · intro hB
    apply prepareYAxisRanges_raw
    rcases hB with hB | hB | hB
    · simp [hB]
    · simp [hB]
    · simp [hB]

theorem calculateYAxisRanges_claim_witness :
    sampleCompositeA._prepareYAxisRanges =
      { lyAxisMin := some (Min.min 1 (2 / ((5 - 2) / (3 - 1)))),
        lyAxisMax := some (Max.max 3 (5 / ((5 - 2) / (3 - 1)))),
        ryAxisMin := some (Min.min 2 (1 * ((5 - 2) / (3 - 1)))),
        ryAxisMax := some (Max.max 5 (3 * ((5 - 2) / (3 - 1)))) }
  ∧ sampleCompositeB._prepareYAxisRanges =
      { lyAxisMin := sampleCompositeB._yAxisMin, lyAxisMax := sampleCompositeB._yAxisMax,
        ryAxisMin := sampleCompositeB._rightYAxisMin,
        ryAxisMax := sampleCompositeB._rightYAxisMax } :=
  ⟨(calculateYAxisRanges_claim sampleCompositeA).1 1 3 2 5 (by decide) (by decide)
      (by decide) (by decide)
      (by simp [sampleCompositeA, sampleLeftChild, sampleRightChild, CompositeChart._yAxisMax,
        CompositeChart._getYAxisMax, CompositeChart._leftYAxisChildren, d3.max, utils.add])
      (by decide)
      (by simp [sampleCompositeA, sampleLeftChild, sampleRightChild,
        CompositeChart._rightYAxisMax, CompositeChart._getYAxisMax,
        CompositeChart._rightYAxisChildren, d3.max, utils.add]),
   (calculateYAxisRanges_claim sampleCompositeB).2 (Or.inl (by decide))⟩

/-- Scaling one range of the alignment output by the extent quotient `r`:
the minimum side. -/
theorem align_min_scaled (lm rm r : ℚ) (hrpos : 0 < r) :
    Min.min rm (lm * r) = r * Min.min lm (rm / r) := by
  have hrne : r ≠ 0 := ne_of_gt hrpos
  rcases le_total lm (rm / r) with h | h
  · have h1 : lm * r ≤ rm := by
      have h2 := mul_le_mul_of_nonneg_right h (le_of_lt hrpos)
      rwa [div_mul_cancel₀ _ hrne] at h2
    rw [min_eq_left h, min_eq_right h1, mul_comm]
  · have h1 : rm ≤ lm * r := by
      have h2 := mul_le_mul_of_nonneg_right h (le_of_lt hrpos)
      rwa [div_mul_cancel₀ _ hrne] at h2
    rw [min_eq_right h, min_eq_left h1, mul_comm, div_mul_cancel₀ _ hrne]

/-- Scaling one range of the alignment output by the extent quotient `r`:
the maximum side. -/
theorem align_max_scaled (lM rM r : ℚ) (hrpos : 0 < r) :
    Max.max rM (lM * r) = r * Max.max lM (rM / r) := by
  have hrne : r ≠ 0 := ne_of_gt hrpos
  rcases le_total lM (rM / r) with h | h
  · have h1 : lM * r ≤ rM := by
      have h2 := mul_le_mul_of_nonneg_right h (le_of_lt hrpos)
      rwa [div_mul_cancel₀ _ hrne] at h2
    rw [max_eq_right h, max_eq_left h1, mul_comm, div_mul_cancel₀ _ hrne]
  · have h1 : rM ≤ lM * r := by
      have h2 := mul_le_mul_of_nonneg_right h (le_of_lt hrpos)
      rwa [div_mul_cancel₀ _ hrne] at h2
    rw [max_eq_left h, max_eq_right h1, mul_comm]

/-- The aligned right range is the aligned left range scaled by a positive
`r`, so zero sits at the same fraction of both. -/
theorem align_fraction_helper (lm lM rm rM r : ℚ) (hrpos : 0 < r) :
    Min.min lm (rm / r) / (Max.max lM (rM / r) - Min.min lm (rm / r))
      = Min.min rm (lm * r) / (Max.max rM (lM * r) - Min.min rm (lm * r)) := by
  have hrne : r ≠ 0 := ne_of_gt hrpos
  rw [align_min_scaled lm rm r hrpos, align_max_scaled lM rM r hrpos, ← mul_sub,
    mul_div_mul_left _ _ hrne]

/-- C3: for input ranges that both contain zero and have nonzero span, the
dual-axis alignment output places zero at the same fractional position on
both axes: `alignedLeftMin / (alignedLeftMax − alignedLeftMin)` equals
`alignedRightMin / (alignedRightMax − alignedRightMin)`. -/
theorem alignYAxisRanges_zero_same_fraction (lm lM rm rM : ℚ)
    (_hlz : lm ≤ 0) (_hlM : 0 ≤ lM) (_hrz : rm ≤ 0) (_hrM : 0 ≤ rM)
    (hls : lm < lM) (hrs : rm < rM) :
    (CompositeChart._alignYAxisRanges lm lM rm rM).lyAxisMin
        / ((CompositeChart._alignYAxisRanges lm lM rm rM).lyAxisMax
            - (CompositeChart._alignYAxisRanges lm lM rm rM).lyAxisMin)
      = (CompositeChart._alignYAxisRanges lm lM rm rM).ryAxisMin
        / ((CompositeChart._alignYAxisRanges lm lM rm rM).ryAxisMax
            - (CompositeChart._alignYAxisRanges lm lM rm rM).ryAxisMin) := by
  have hrpos : 0 < (rM - rm) / (lM - lm) :=
    div_pos (sub_pos.mpr hrs) (sub_pos.mpr hls)
  simpa [CompositeChart._alignYAxisRanges] using
    align_fraction_helper lm lM rm rM ((rM - rm) / (lM - lm)) hrpos

theorem alignYAxisRanges_zero_same_fraction_witness :
    (CompositeChart._alignYAxisRanges (-2) 8 (-10) 40).lyAxisMin
        / ((CompositeChart._alignYAxisRanges (-2) 8 (-10) 40).lyAxisMax
            - (CompositeChart._alignYAxisRanges (-2) 8 (-10) 40).lyAxisMin)
      = (CompositeChart._alignYAxisRanges (-2) 8 (-10) 40).ryAxisMin
        / ((CompositeChart._alignYAxisRanges (-2) 8 (-10) 40).ryAxisMax
            - (CompositeChart._alignYAxisRanges (-2) 8 (-10) 40).ryAxisMin) :=
  alignYAxisRanges_zero_same_fraction (-2) 8 (-10) 40 (by norm_num) (by norm_num)
    (by norm_num) (by norm_num) (by norm_num) (by norm_num)

end DC
